import Mathlib

/-!
Verification of the transcript-verification pipeline (`src/app.py`).

The development shallowly embeds the four core functions of the program
(`verify_physical_scan`, `verify_digital_document`, `run_verification`,
`extract_text_from_file`) as executable Lean functions.  External library
collaborators (the file system, `cv2.imread` / `cv2.matchTemplate`,
`pdfplumber`, `pdf2image.convert_from_path`, `pytesseract`, `PIL.Image.open`)
are abstracted into an explicit `Env` record of oracles: each oracle stands
for one library call, keyed by the same arguments the program passes, and the
fallible ones return `Except String` values to model Python exceptions.
Images are modelled by their pixel-grid dimensions (the only attribute the
program's control flow inspects); correlation scores are rationals, and the
float scale factors 0.15 / 0.50 are modelled as exact rationals, so
`int(w * scale)` becomes natural-number `w * s / 100`.
-/

namespace TranscriptVerify

/-- Python `str.lower()`, character-wise (ASCII `A`-`Z` mapped down, as in
the strings this program compares). -/
def pyLower (s : String) : String :=
  String.mk (s.toList.map Char.toLower)

/-- Python `str.strip()`: remove leading and trailing whitespace. -/
def pyStrip (s : String) : String :=
  String.mk (((s.toList.dropWhile Char.isWhitespace).reverse.dropWhile
    Char.isWhitespace).reverse)

/-- Python `str.endswith(suffix)`. -/
def strEndsWith (s suffix_ : String) : Bool :=
  suffix_.toList.isSuffixOf s.toList

/-- Python substring test `needle in hay` on lists of characters. -/
def listContainsSub (needle : List Char) : List Char → Bool
  | [] => needle.isEmpty
  | c :: rest => needle.isPrefixOf (c :: rest) || listContainsSub needle rest

/-- Python's `needle in hay` for strings (exact, case-sensitive). -/
def strContains (hay needle : String) : Bool :=
  listContainsSub needle.toList hay.toList

/-- Last index of character `c` in `cs`, or `-1` when absent
(Python `str.rfind` restricted to a single character). -/
def lastIndexOf (cs : List Char) (c : Char) : Int :=
  cs.enum.foldl (fun acc q => if q.2 = c then (q.1 : Int) else acc) (-1)

/-- `os.path.splitext(p)[1]`, following CPython `genericpath._splitext` with
the Windows separators `sep = '\\'`, `altsep = '/'` (the program configures
Windows tool paths): the extension starts at the last dot of the basename,
unless every character of the basename before that dot is itself a dot. -/
def splitextExt (p : String) : String :=
  let cs := p.toList
  let sepIndex := max (lastIndexOf cs '\\') (lastIndexOf cs '/')
  let dotIndex := lastIndexOf cs '.'
  if sepIndex < dotIndex then
    if cs.enum.any (fun q =>
        decide (sepIndex < (q.1 : Int) ∧ (q.1 : Int) < dotIndex ∧ q.2 ≠ '.')) then
      String.mk (cs.drop dotIndex.toNat)
    else ""
  else ""

/-- `os.path.splitext(filepath)[1].lower()` (line 151 of `app.py`). -/
def splitextExtLower (p : String) : String :=
  pyLower (splitextExt p)

/-- A grayscale raster image, modelled by its dimensions
(`shape[0] = h` rows, `shape[1] = w` columns).  OpenCV and PIL never
produce a zero-sized image from a successful load, so both are positive. -/
structure GrayImage where
  h : Nat
  w : Nat
  hpos : 0 < h
  wpos : 0 < w

/-- The external collaborators of the program, one oracle per library call.
`Except String α` models a Python call that may raise (the carried string is
the exception's description `str(e)`). -/
structure Env where
  /-- `os.path.exists path`. -/
  pathExists : String → Bool
  /-- `cv2.imread(path, 0)`: `none` models OpenCV returning `None`. -/
  imreadGray : String → Option GrayImage
  /-- `np.max(cv2.matchTemplate(processed_doc, resized_template,
  cv2.TM_CCOEFF_NORMED))`, keyed by the feature name (which fixes the
  preprocessing applied), the document page and the resized template's
  target width and height. -/
  matchMax : String → GrayImage → Nat → Nat → ℚ
  /-- `pdfplumber.open(path)` followed by `page.extract_text()` on every
  page; a page with no text layer yields `none` (Python `None`). -/
  pdfPages : String → Except String (List (Option String))
  /-- `convert_from_path(path, poppler_path=...)`, pages in order. -/
  convertFromPath : String → Except String (List GrayImage)
  /-- `pytesseract.image_to_string(img)`. -/
  imageToString : GrayImage → Except String String
  /-- `PIL.Image.open(path)` (the handle is immediately fed to OCR, so it
  is modelled as the loaded image). -/
  openImage : String → Except String GrayImage

/-- A `VerificationReport`: a Python dict built by insertion of distinct
keys, hence an ordered association list. -/
abbrev Report := List (String × String)

/-- `required_keywords` (line 33). -/
def required_keywords : List String :=
  ["statement of grades", "enrollment number", "sgpa"]

/-- `found_keywords = sum(1 for kw in required_keywords if kw in text.lower())`
(line 34). -/
def found_keywords (text : String) : Nat :=
  required_keywords.countP (fun kw => strContains (pyLower text) kw)

/-- `found_keywords >= 2` — the pass condition of the format check (line 35). -/
def formatCheckPasses (text : String) : Bool :=
  decide (2 ≤ found_keywords text)

/-- The "Document Format" report line (lines 36 and 39). -/
def documentFormatLine (text : String) : String :=
  if formatCheckPasses text then "✅ Correct"
  else "❌ Incorrect (Found " ++ toString (found_keywords text) ++ "/"
         ++ toString required_keywords.length ++ " keywords)"

/-- `scale_factor = 0.15 if "Logo" in feature_name else 0.50` (line 74),
as a percentage so that `int(doc_w * scale_factor)` is exact division. -/
def scale_factor_pct (feature_name : String) : Nat :=
  if strContains feature_name "Logo" then 15 else 50

/-- `threshold = 0.60` for the logo, `0.35` for the watermark
(lines 63 and 70). -/
def feature_threshold (feature_name : String) : ℚ :=
  if strContains feature_name "Logo" then 60 / 100 else 35 / 100

/-- `target_w = int(doc_w * scale_factor)` (line 75): the float scale is
0.15 or 0.50 and `int` truncates the positive product, i.e. floor. -/
def target_w (doc : GrayImage) (feature_name : String) : Nat :=
  doc.w * scale_factor_pct feature_name / 100

/-- `ratio = target_w / template.shape[1]` then
`target_h = int(template.shape[0] * ratio)` (lines 82-83), as the floor of
the exact rational product. -/
def target_h (doc : GrayImage) (template : GrayImage) (feature_name : String) : Nat :=
  template.h * target_w doc feature_name / template.w

/-- Python `f"{q:.2f}"` on the correlation score: fixed two-decimal
rendering of a rational (round to nearest hundredth). -/
def fmtConf (q : ℚ) : String :=
  let n : Int := Rat.floor (q * 100 + 1 / 2)
  let sign := if n < 0 then "-" else ""
  let m := n.natAbs
  sign ++ toString (m / 100) ++ "."
    ++ (if m % 100 < 10 then "0" else "") ++ toString (m % 100)

/-- One iteration of the template loop of `verify_physical_scan`
(lines 48-102): returns the report line recorded under the feature's name
together with whether the check passed (`passed_checks` was incremented).
Gaussian blur and histogram equalization preserve the image dimensions, so
preprocessing only selects the threshold/scale and is otherwise folded into
the `matchMax` oracle (which is keyed by the feature name). -/
def featureStep (env : Env) (doc : GrayImage) (feature_name template_path : String) :
    String × Bool :=
  if !(env.pathExists template_path) then
    ("⚠️ Template missing on server", false)
  else
    match env.imreadGray template_path with
    | none => ("❌ Template could not be read", false)
    | some template =>
      if target_w doc feature_name = 0 then
        ("❌ Document image is too small", false)
      else if target_h doc template feature_name = 0 then
        ("❌ Template resize resulted in zero height", false)
      else if doc.h < target_h doc template feature_name then
        ("❌ Template resize failed", false)
      else
        let score := env.matchMax feature_name doc
          (target_w doc feature_name) (target_h doc template feature_name)
        if feature_threshold feature_name < score then
          ("✅ Found (Confidence: " ++ fmtConf score ++ ")", true)
        else
          ("❌ Not Found (Confidence: " ++ fmtConf score ++ ")", false)

/-- Whether the logo check passes (contributes to `passed_checks`). -/
def logoCheckPasses (env : Env) (doc : GrayImage) : Bool :=
  (featureStep env doc "University Logo" "university_logo.png").2

/-- Whether the watermark check passes (contributes to `passed_checks`). -/
def watermarkCheckPasses (env : Env) (doc : GrayImage) : Bool :=
  (featureStep env doc "Background Watermark" "watermark_template.png").2

/-- `total_checks_to_pass = 3` (line 30). -/
def total_checks_to_pass : Nat := 3

/-- The final value of the `passed_checks` accumulator (lines 29, 37, 100). -/
def passed_checks (env : Env) (doc : GrayImage) (text : String) : Nat :=
  (cond (formatCheckPasses text) 1 0)
    + (cond (logoCheckPasses env doc) 1 0)
    + (cond (watermarkCheckPasses env doc) 1 0)

/-- `verify_physical_scan(doc_image, text)` (lines 24-110).  The report
keys are inserted in program order: the type tag, the format check, the two
template features in the `templates` dict order (logo then watermark), and
the final verdict `passed_checks >= total_checks_to_pass`. -/
def verify_physical_scan (env : Env) (doc_image : GrayImage) (text : String) : Report :=
  [("Document Type Detected", "Physical Scan"),
   ("Document Format", documentFormatLine text),
   ("University Logo",
     (featureStep env doc_image "University Logo" "university_logo.png").1),
   ("Background Watermark",
     (featureStep env doc_image "Background Watermark" "watermark_template.png").1),
   ("Overall Result",
     if total_checks_to_pass ≤ passed_checks env doc_image text
     then "VERIFIED" else "NOT VERIFIED")]

/-- The pass condition of `verify_digital_document` (line 116):
`"Indira Gandhi Delhi Technical University".lower() in text.lower() and
"digilocker" in text.lower()`. -/
def digitalPassCond (text : String) : Bool :=
  strContains (pyLower text) (pyLower "Indira Gandhi Delhi Technical University")
    && strContains (pyLower text) "digilocker"

/-- `verify_digital_document(text)` (lines 112-123). -/
def verify_digital_document (text : String) : Report :=
  if digitalPassCond text then
    [("Document Type Detected", "Digital (DigiLocker)"),
     ("Overall Result", "VERIFIED"),
     ("Source", "✅ DigiLocker and University name found")]
  else
    [("Document Type Detected", "Digital (DigiLocker)"),
     ("Overall Result", "NOT VERIFIED"),
     ("Source", "❌ DigiLocker or University name missing")]

/-- `full_text = "".join(page.extract_text() or "" for page in pdf.pages)`
(line 155). -/
def pdfFullText (pages : List (Option String)) : String :=
  String.join (pages.map (fun p => p.getD ""))

/-- The body of the `try` block of `extract_text_from_file`
(lines 152-162), before the catch-all `except`. -/
def extractTextBody (env : Env) (filepath : String) : Except String String :=
  let file_ext := splitextExtLower filepath
  if file_ext = ".pdf" then
    match env.pdfPages filepath with
    | .error e => .error e
    | .ok pages =>
      let full_text := pdfFullText pages
      if (pyStrip full_text).length < 100 then
        match env.convertFromPath filepath with
        | .error e => .error e
        | .ok images =>
          match images.mapM env.imageToString with
          | .error e => .error e
          | .ok texts => .ok (String.join texts)
      else .ok full_text
  else if [".jpg", ".jpeg", ".png"].contains file_ext then
    match env.openImage filepath with
    | .error e => .error e
    | .ok img => env.imageToString img
  else .ok ""

/-- `extract_text_from_file(filepath)` (lines 148-165): the catch-all
`except Exception: text = ""` around the body. -/
def extract_text_from_file (env : Env) (filepath : String) : String :=
  match extractTextBody env filepath with
  | .ok t => t
  | .error _ => ""

/-- The `try` block of the physical-scan arm of `run_verification`
(lines 135-144), returning `.error` where a library call raises. -/
def physicalScanTry (env : Env) (filepath : String) (text : String) :
    Except String Report :=
  if strEndsWith (pyLower filepath) ".pdf" then
    match env.convertFromPath filepath with
    | .error e => .error e
    | .ok [] => .ok [("Overall Result", "ERROR: PDF is empty or unreadable.")]
    | .ok (firstPage :: _) => .ok (verify_physical_scan env firstPage text)
  else
    match env.imreadGray filepath with
    | none => .ok [("Overall Result", "ERROR: Could not read file as an image.")]
    | some doc_image => .ok (verify_physical_scan env doc_image text)

/-- The physical-scan arm of `run_verification` with its `except` clause
(lines 134-146). -/
def physicalScanBranch (env : Env) (filepath : String) (text : String) : Report :=
  match physicalScanTry env filepath text with
  | .ok report => report
  | .error e => [("Overall Result", "ERROR: Image processing failed: " ++ e)]

/-- `run_verification(filepath)` (lines 125-146): extract text,
short-circuit on empty text (`if not text`), classify on the "digilocker"
marker, dispatch. -/
def run_verification (env : Env) (filepath : String) : Report :=
  let text := extract_text_from_file env filepath
  if text = "" then
    [("Overall Result", "ERROR: Could not extract any text from the document.")]
  else if strContains (pyLower text) "digilocker" then
    verify_digital_document text
  else
    physicalScanBranch env filepath text

/-! ### Concrete fixtures used by witnesses and counterexamples -/

/-- A 100×100 page or template image. -/
def img100 : GrayImage := ⟨100, 100, by decide, by decide⟩

/-- A 10×6 page: narrow enough that the 15% logo target width truncates
to zero. -/
def img6 : GrayImage := ⟨10, 6, by decide, by decide⟩

/-- A 50×50 template. -/
def tmpl50 : GrayImage := ⟨50, 50, by decide, by decide⟩

/-- A 5×100 template: resizing to 15% of a 100-wide page gives height
`5 * 15 / 100 = 0`. -/
def tmplWide : GrayImage := ⟨5, 100, by decide, by decide⟩

/-- A 1000×10 template: resizing to 15% of a 100-wide page gives height
`1000 * 15 / 10 = 1500`, taller than the page. -/
def tmplTall : GrayImage := ⟨1000, 10, by decide, by decide⟩

/-- A base environment: no template assets on disk, every image loads as
`img100`, OCR reads a single space, no PDF backends. -/
def envW : Env where
  pathExists := fun _ => false
  imreadGray := fun _ => some img100
  matchMax := fun _ _ _ _ => 0
  pdfPages := fun _ => Except.error "no pdf backend"
  convertFromPath := fun _ => Except.error "no rasterizer"
  imageToString := fun _ => Except.ok " "
  openImage := fun _ => Except.ok img100

/-- Environment whose template files exist but cannot be decoded. -/
def envUnread : Env :=
  { envW with pathExists := fun _ => true, imreadGray := fun _ => none }

/-- Environment whose template files exist and decode to `t`. -/
def envTmpl (t : GrayImage) : Env :=
  { envW with pathExists := fun _ => true, imreadGray := fun _ => some t }

/-- A 120-character embedded PDF text layer. -/
def bigText : String := String.mk (List.replicate 120 'a')

/-- Environment whose PDF text layer is `bigText` (≥ 100 characters). -/
def envPdfBig : Env := { envW with pdfPages := fun _ => Except.ok [some bigText] }

/-- Environment whose PDF text layer is short, with a working rasterizer
and OCR. -/
def envPdfSmall : Env :=
  { envW with pdfPages := fun _ => Except.ok [some "short"],
              convertFromPath := fun _ => Except.ok [img100],
              imageToString := fun _ => Except.ok "ocr page text" }

/-- Environment whose OCR reads the DigiLocker marker. -/
def envDig : Env := { envW with imageToString := fun _ => Except.ok "Issued via DigiLocker" }

/-- Text containing exactly two of the three format keywords. -/
def t_two_kw : String := "enrollment number sgpa"

/-- Text containing all three format keywords. -/
def t_three_kw : String := "statement of grades enrollment number sgpa"

/-! ### Shared lemmas -/

/-- The "Overall Result" entry of a physical-scan report is the verdict of
the `passed_checks >= total_checks_to_pass` comparison. -/
lemma overall_lookup (env : Env) (doc : GrayImage) (text : String) :
    List.lookup "Overall Result" (verify_physical_scan env doc text) =
      some (if total_checks_to_pass ≤ passed_checks env doc text
            then "VERIFIED" else "NOT VERIFIED") := rfl

/-- The "Overall Result" entry of a digital report. -/
lemma digital_overall_lookup (text : String) :
    List.lookup "Overall Result" (verify_digital_document text) =
      some (if digitalPassCond text then "VERIFIED" else "NOT VERIFIED") := by
  cases hd : digitalPassCond text <;> simp [verify_digital_document, hd, List.lookup]

/-! ### Claims -/

/-- C1: for every page image and extracted text, the physical-scan
verifier's report has "Overall Result" = "VERIFIED" if and only if all
three checks (format keyword check, logo template match, watermark
template match) pass; if any one of the three fails, the result is
"NOT VERIFIED". -/
theorem claim1_physical_verdict_strict_and (env : Env) (doc : GrayImage) (text : String) :
    List.lookup "Overall Result" (verify_physical_scan env doc text) =
      some (if formatCheckPasses text && logoCheckPasses env doc
               && watermarkCheckPasses env doc
            then "VERIFIED" else "NOT VERIFIED") ∧
    (List.lookup "Overall Result" (verify_physical_scan env doc text) = some "VERIFIED" ↔
      formatCheckPasses text = true ∧ logoCheckPasses env doc = true ∧
        watermarkCheckPasses env doc = true) := by
  rw [overall_lookup]
  unfold passed_checks total_checks_to_pass
  cases hf : formatCheckPasses text <;> cases hl : logoCheckPasses env doc <;>
    cases hw : watermarkCheckPasses env doc <;> simp

/-- C2 counterexample: an environment whose OCR yields a single space.
The extracted text is whitespace-only (and non-empty), yet the entry point
does not return the extraction-error report: it classifies the document as
a physical scan and runs the full verification. -/
theorem claim2_counterexample :
    extract_text_from_file envW "scan.png" = " " ∧
    pyStrip (extract_text_from_file envW "scan.png") = "" ∧
    run_verification envW "scan.png" ≠
      [("Overall Result", "ERROR: Could not extract any text from the document.")] ∧
    List.lookup "Document Type Detected" (run_verification envW "scan.png") =
      some "Physical Scan" := by
  refine ⟨rfl, rfl, ?_, rfl⟩
  decide

/-- C2 (amended): for every document whose extracted text is the empty
string, the verification entry point returns the report
`{"Overall Result": "ERROR: Could not extract any text from the document."}`
and performs no classification or verification. -/
theorem claim2_empty_text_error (env : Env) (filepath : String)
    (h : extract_text_from_file env filepath = "") :
    run_verification env filepath =
      [("Overall Result", "ERROR: Could not extract any text from the document.")] := by
  simp [run_verification, h]

/-- C2 witness: `envW` extracts nothing from an unsupported `.txt` file,
so the entry point short-circuits to the extraction-error report. -/
theorem claim2_empty_text_error_witness :
    run_verification envW "notes.txt" =
      [("Overall Result", "ERROR: Could not extract any text from the document.")] :=
  claim2_empty_text_error envW "notes.txt" rfl

/-- C3: for every input document, the verification entry point (a total
function of the environment and the file path — no exception escapes to
the caller) returns a report containing the key "Overall Result" whose
value is "VERIFIED", "NOT VERIFIED", or a string beginning with "ERROR:". -/
theorem claim3_report_wellformed (env : Env) (filepath : String) :
    ∃ v, List.lookup "Overall Result" (run_verification env filepath) = some v ∧
      (v = "VERIFIED" ∨ v = "NOT VERIFIED" ∨ ∃ rest, v = "ERROR:" ++ rest) := by
  have herr : ∀ s e : String, (∃ rest, "ERROR:" ++ s ++ e = "ERROR:" ++ rest) :=
    fun s e => ⟨s ++ e, by rw [String.append_assoc]⟩
  unfold run_verification
  by_cases h : extract_text_from_file env filepath = ""
  · simp only [h, if_true, if_pos rfl]
    exact ⟨_, rfl, Or.inr (Or.inr
      ⟨" Could not extract any text from the document.", rfl⟩)⟩
  · simp only [if_neg h]
    by_cases hc : strContains (pyLower (extract_text_from_file env filepath)) "digilocker"
    · simp only [if_pos hc]
      rw [digital_overall_lookup]
      cases digitalPassCond (extract_text_from_file env filepath) <;> simp
    · simp only [if_neg hc]
      unfold physicalScanBranch physicalScanTry
      by_cases hp : strEndsWith (pyLower filepath) ".pdf"
      · simp only [if_pos hp]
        cases hcv : env.convertFromPath filepath with
        | error e =>
          exact ⟨_, rfl, Or.inr (Or.inr (herr " Image processing failed: " e))⟩
        | ok images =>
          cases images with
          | nil => exact ⟨_, rfl, Or.inr (Or.inr ⟨" PDF is empty or unreadable.", rfl⟩)⟩
          | cons firstPage rest =>
            rw [overall_lookup]
            by_cases hv : total_checks_to_pass ≤
                passed_checks env firstPage (extract_text_from_file env filepath) <;>
              simp [hv]
      · simp only [if_neg hp]
        cases hrd : env.imreadGray filepath with
        | none => exact ⟨_, rfl, Or.inr (Or.inr ⟨" Could not read file as an image.", rfl⟩)⟩
        | some doc_image =>
          rw [overall_lookup]
          by_cases hv : total_checks_to_pass ≤
              passed_checks env doc_image (extract_text_from_file env filepath) <;>
            simp [hv]

/-- C4: the digital verifier reports "VERIFIED" exactly when the lowered
text contains both the lowered fixed institution name and "digilocker",
and "NOT VERIFIED" otherwise; each outcome carries the corresponding
"Source" detail line. -/
theorem claim4_digital_verdict (text : String) :
    List.lookup "Overall Result" (verify_digital_document text) =
      some (if digitalPassCond text then "VERIFIED" else "NOT VERIFIED") ∧
    List.lookup "Source" (verify_digital_document text) =
      some (if digitalPassCond text then "✅ DigiLocker and University name found"
            else "❌ DigiLocker or University name missing") ∧
    digitalPassCond text =
      (strContains (pyLower text) (pyLower "Indira Gandhi Delhi Technical University")
        && strContains (pyLower text) "digilocker") := by
  refine ⟨digital_overall_lookup text, ?_, rfl⟩
  cases hd : digitalPassCond text <;> simp [verify_digital_document, hd, List.lookup]

/-- C5 counterexample: two texts with different found-keyword counts (2
and 3) produce identical physical-scan reports — in particular the same
"Document Format" line "✅ Correct" — so the count of found keywords is
not recorded in the report when the check passes. -/
theorem claim5_counterexample :
    found_keywords t_two_kw = 2 ∧ found_keywords t_three_kw = 3 ∧
    List.lookup "Document Format" (verify_physical_scan envW img100 t_two_kw) =
      some "✅ Correct" ∧
    verify_physical_scan envW img100 t_two_kw =
      verify_physical_scan envW img100 t_three_kw := by
  refine ⟨by decide, by decide, rfl, by decide⟩

/-- C5 (amended): the format check passes if and only if at least 2 of
the 3 keywords occur as case-insensitive substrings, and the count of
found keywords is recorded in the report's "Document Format" line when
the check fails (a passing check records only "✅ Correct"). -/
theorem claim5_format_check (env : Env) (doc : GrayImage) (text : String) :
    List.lookup "Document Format" (verify_physical_scan env doc text) =
      some (if 2 ≤ found_keywords text then "✅ Correct"
            else "❌ Incorrect (Found " ++ toString (found_keywords text) ++ "/"
                   ++ toString required_keywords.length ++ " keywords)") ∧
    (formatCheckPasses text = true ↔ 2 ≤ found_keywords text) := by
  constructor
  · show some (documentFormatLine text) = _
    unfold documentFormatLine formatCheckPasses
    by_cases h : 2 ≤ found_keywords text <;> simp [h]
  · simp [formatCheckPasses]

/-- C6: for a PDF whose concatenated, whitespace-trimmed embedded text
layer has length ≥ 100, the extractor returns the embedded text — for
every environment agreeing on the text layer, so the OCR and rasterizer
oracles are never consulted; with length < 100 it falls back to
rasterizing the pages and concatenating their OCR output in page order. -/
theorem claim6_pdf_text_layer (env : Env) (filepath : String)
    (pages : List (Option String))
    (hext : splitextExtLower filepath = ".pdf")
    (hpages : env.pdfPages filepath = .ok pages) :
    (100 ≤ (pyStrip (pdfFullText pages)).length →
      extract_text_from_file env filepath = pdfFullText pages) ∧
    ((pyStrip (pdfFullText pages)).length < 100 →
      ∀ images texts, env.convertFromPath filepath = .ok images →
        images.mapM env.imageToString = .ok texts →
        extract_text_from_file env filepath = String.join texts) := by
  constructor
  · intro hlen
    simp [extract_text_from_file, extractTextBody, hext, hpages, Nat.not_lt.mpr hlen]
  · intro hlen images texts hconv hocr
    simp only [List.mapM] at hocr
    simp [extract_text_from_file, extractTextBody, hext, hpages, hlen, hconv, hocr]

/-- C6 witness: with a 120-character text layer the extractor returns it
(under an environment whose rasterizer and OCR are broken); with a short
text layer it returns the concatenated OCR output. -/
theorem claim6_pdf_text_layer_witness :
    extract_text_from_file envPdfBig "doc.pdf" = bigText ∧
    extract_text_from_file envPdfSmall "doc.pdf" = "ocr page text" := by
  constructor
  · exact (claim6_pdf_text_layer envPdfBig "doc.pdf" [some bigText]
      (by decide) rfl).1 (by decide)
  · exact (claim6_pdf_text_layer envPdfSmall "doc.pdf" [some "short"]
      (by decide) rfl).2 (by decide) [img100] ["ocr page text"] rfl rfl

/-- C7: for every non-empty extracted text, the entry point dispatches to
the digital verifier exactly when the lowered text contains "digilocker",
and to the physical-scan branch otherwise. -/
theorem claim7_routing (env : Env) (filepath : String)
    (h : extract_text_from_file env filepath ≠ "") :
    (strContains (pyLower (extract_text_from_file env filepath)) "digilocker" = true →
      run_verification env filepath =
        verify_digital_document (extract_text_from_file env filepath)) ∧
    (strContains (pyLower (extract_text_from_file env filepath)) "digilocker" = false →
      run_verification env filepath =
        physicalScanBranch env filepath (extract_text_from_file env filepath)) := by
  constructor <;> intro hc <;> simp [run_verification, h, hc]

/-- C7 witness: OCR text containing "DigiLocker" routes to the digital
verifier. -/
theorem claim7_routing_witness :
    run_verification envDig "d.png" =
      verify_digital_document (extract_text_from_file envDig "d.png") :=
  (claim7_routing envDig "d.png" (by decide)).1 (by decide)

/-- C8: the text extractor is a total function (no exception escapes):
any exception inside its body yields the empty string, and any file whose
extension is not .pdf, .jpg, .jpeg or .png yields the empty string. -/
theorem claim8_extractor_never_fails (env : Env) (filepath : String) :
    (splitextExtLower filepath ∉ [".pdf", ".jpg", ".jpeg", ".png"] →
      extract_text_from_file env filepath = "") ∧
    (∀ e, extractTextBody env filepath = .error e →
      extract_text_from_file env filepath = "") := by
  constructor
  · intro h
    simp only [List.mem_cons, List.mem_singleton, not_or] at h
    obtain ⟨h1, h2, h3, h4⟩ := h
    simp [extract_text_from_file, extractTextBody, h1, h2, h3, h4]
  · intro e he
    simp [extract_text_from_file, he]

/-- C8 witness: a `.txt` file yields empty text, and a PDF whose reader
raises yields empty text. -/
theorem claim8_extractor_never_fails_witness :
    extract_text_from_file envW "notes.txt" = "" ∧
    extract_text_from_file envW "b.pdf" = "" := by
  constructor
  · exact (claim8_extractor_never_fails envW "notes.txt").1 (by decide)
  · exact (claim8_extractor_never_fails envW "b.pdf").2 "no pdf backend" rfl

/-- C9: each soft-failure condition of a feature check (template file
missing, template unreadable, zero target width, zero target height,
resized template taller than the page) records its named outcome with
`passed = false` (so it never increases the passed-check count and raises
no error, the step being a total function), and the report always carries
all five entries in order — both feature checks and the format check
execute and report independently of any such failure. -/
theorem claim9_soft_failures (env : Env) (doc : GrayImage) (text : String)
    (feature_name template_path : String) (template : GrayImage) :
    ((verify_physical_scan env doc text).map Prod.fst =
      ["Document Type Detected", "Document Format", "University Logo",
       "Background Watermark", "Overall Result"]) ∧
    (env.pathExists template_path = false →
      featureStep env doc feature_name template_path =
        ("⚠️ Template missing on server", false)) ∧
    (env.pathExists template_path = true → env.imreadGray template_path = none →
      featureStep env doc feature_name template_path =
        ("❌ Template could not be read", false)) ∧
    (env.pathExists template_path = true →
      env.imreadGray template_path = some template →
      target_w doc feature_name = 0 →
      featureStep env doc feature_name template_path =
        ("❌ Document image is too small", false)) ∧
    (env.pathExists template_path = true →
      env.imreadGray template_path = some template →
      target_w doc feature_name ≠ 0 → target_h doc template feature_name = 0 →
      featureStep env doc feature_name template_path =
        ("❌ Template resize resulted in zero height", false)) ∧
    (env.pathExists template_path = true →
      env.imreadGray template_path = some template →
      target_w doc feature_name ≠ 0 → target_h doc template feature_name ≠ 0 →
      doc.h < target_h doc template feature_name →
      featureStep env doc feature_name template_path =
        ("❌ Template resize failed", false)) ∧
    (List.lookup "University Logo" (verify_physical_scan env doc text) =
      some (featureStep env doc "University Logo" "university_logo.png").1) ∧
    (List.lookup "Background Watermark" (verify_physical_scan env doc text) =
      some (featureStep env doc "Background Watermark" "watermark_template.png").1) := by
  refine ⟨rfl, ?_, ?_, ?_, ?_, ?_, rfl, rfl⟩
  · intro h1
    simp [featureStep, h1]
  · intro h1 h2
    simp [featureStep, h1, h2]
  · intro h1 h2 h3
    simp [featureStep, h1, h2, h3]
  · intro h1 h2 h3 h4
    simp [featureStep, h1, h2, h3, h4]
  · intro h1 h2 h3 h4 h5
    simp [featureStep, h1, h2, h3, h4, h5, Nat.not_lt.mpr (Nat.le_of_lt h5)]

/-- C9 witness: each of the five soft-failure conditions realized at a
concrete environment, page and template, plus the report-shape fact. -/
theorem claim9_soft_failures_witness :
    featureStep envW img100 "University Logo" "university_logo.png" =
      ("⚠️ Template missing on server", false) ∧
    featureStep envUnread img100 "University Logo" "university_logo.png" =
      ("❌ Template could not be read", false) ∧
    featureStep (envTmpl tmpl50) img6 "University Logo" "university_logo.png" =
      ("❌ Document image is too small", false) ∧
    featureStep (envTmpl tmplWide) img100 "University Logo" "university_logo.png" =
      ("❌ Template resize resulted in zero height", false) ∧
    featureStep (envTmpl tmplTall) img100 "University Logo" "university_logo.png" =
      ("❌ Template resize failed", false) ∧
    (verify_physical_scan envW img100 "").map Prod.fst =
      ["Document Type Detected", "Document Format", "University Logo",
       "Background Watermark", "Overall Result"] :=
  ⟨(claim9_soft_failures envW img100 "" "University Logo" "university_logo.png"
      img100).2.1 rfl,
   (claim9_soft_failures envUnread img100 "" "University Logo" "university_logo.png"
      img100).2.2.1 rfl rfl,
   (claim9_soft_failures (envTmpl tmpl50) img6 "" "University Logo"
      "university_logo.png" tmpl50).2.2.2.1 rfl rfl (by decide),
   (claim9_soft_failures (envTmpl tmplWide) img100 "" "University Logo"
      "university_logo.png" tmplWide).2.2.2.2.1 rfl rfl (by decide) (by decide),
   (claim9_soft_failures (envTmpl tmplTall) img100 "" "University Logo"
      "university_logo.png" tmplTall).2.2.2.2.2.1 rfl rfl (by decide) (by decide)
      (by decide),
   (claim9_soft_failures envW img100 "" "University Logo" "university_logo.png"
      img100).1⟩

/-- C10: whenever a feature check reaches the template-matching call
(template read, nonzero target width and height, height guard passed),
the resized template fits within the page in both dimensions: the target
width `int(page_width * scale)` with scale 0.15 or 0.50 never exceeds the
page width, and the height guard bounds the target height, so
`cv2.matchTemplate`'s size precondition holds on every reachable call. -/
theorem claim10_match_precondition (env : Env) (doc : GrayImage)
    (feature_name template_path : String) (template : GrayImage)
    (_hread : env.imreadGray template_path = some template)
    (_hw : target_w doc feature_name ≠ 0)
    (_hh : target_h doc template feature_name ≠ 0)
    (hfit : ¬ doc.h < target_h doc template feature_name) :
    target_w doc feature_name ≤ doc.w ∧
      target_h doc template feature_name ≤ doc.h := by
  constructor
  · have hscale : scale_factor_pct feature_name ≤ 100 := by
      unfold scale_factor_pct
      split <;> decide
    show doc.w * scale_factor_pct feature_name / 100 ≤ doc.w
    calc doc.w * scale_factor_pct feature_name / 100
        ≤ doc.w * 100 / 100 :=
          Nat.div_le_div_right (Nat.mul_le_mul_left doc.w hscale)
      _ = doc.w := Nat.mul_div_cancel doc.w (by decide)
  · exact Nat.not_lt.mp hfit

/-- C10 witness: a 100×100 page with a 50×50 logo template — target size
15×15, which fits the page in both dimensions. -/
theorem claim10_match_precondition_witness :
    target_w img100 "University Logo" ≤ img100.w ∧
      target_h img100 tmpl50 "University Logo" ≤ img100.h :=
  claim10_match_precondition (envTmpl tmpl50) img100 "University Logo"
    "university_logo.png" tmpl50 rfl (by decide) (by decide) (by decide)

end TranscriptVerify
